import Mathlib

/-!
Verification of the AzureRM DNS PTR record adapter
(`azurerm/resource_arm_dns_ptr_record.go`).

The Go file is shallowly embedded: Go pointers (`*string`, `*int64`,
`*[]dns.PtrRecord`) become `Option`, the Terraform `schema.ResourceData`
attribute bag becomes an explicit record of optional attributes plus the
resource id, the Azure SDK `dnsClient` becomes an explicit collaborator
record parameterised over a service-state type, and each CRUD entry point
returns the new service state, the new attribute bag, an outcome (success,
a Go `error`, or a Go runtime panic) and the list of service calls it
issued.  Helpers that live elsewhere in the repository
(`parseAzureResourceID`, `expandTags`, the DNS service itself) are
modelled from the specification, as marked on each definition.
-/

set_option autoImplicit false

namespace DnsPtr

/-- A DNS PTR record as in the Azure SDK: `Ptrdname` is a `*string`,
so a missing pointer is `none`. -/
structure PtrRecord where
  Ptrdname : Option String
deriving DecidableEq, Repr

/-- `dns.RecordSetProperties`: metadata (tag map), `TTL *int64`,
`PtrRecords *[]dns.PtrRecord`. -/
structure RecordSetProperties where
  Metadata : List (String × String)
  TTL : Option Int
  PtrRecords : Option (List PtrRecord)
deriving DecidableEq, Repr

/-- The `dns.RecordSet` value assembled as the upsert request body:
the adapter only populates `Name` and `RecordSetProperties`. -/
structure RecordSet where
  Name : Option String
  Properties : Option RecordSetProperties
deriving DecidableEq, Repr

/-- The record-type discriminator; the adapter only ever uses `dns.PTR`. -/
inductive RecordType where
  | PTR
deriving DecidableEq, Repr

/-- A `dns.RecordSet` response (from `CreateOrUpdate` or `Get`) together
with the embedded `autorest.Response` status code.  `ID`, `Etag`, `TTL`
and `PtrRecords` are pointers in Go, hence `Option`. -/
structure RecordSetResp where
  StatusCode : Nat
  ID : Option String
  Etag : Option String
  TTL : Option Int
  PtrRecords : Option (List PtrRecord)
  Metadata : List (String × String)
deriving DecidableEq, Repr

/-- The `autorest.Response` returned by `Delete`. -/
structure DeleteResp where
  StatusCode : Nat
deriving DecidableEq, Repr

/-- The Terraform `schema.ResourceData` attribute bag for this resource:
its opaque id plus the attributes of the schema.  An attribute that has
never been set is `none`. -/
structure ResourceData where
  id : String
  name : Option String
  resource_group_name : Option String
  zone_name : Option String
  records : Option (List String)
  ttl : Option Int
  etag : Option String
  tags : Option (List (String × String))
deriving DecidableEq, Repr

/-- `schema.ResourceData.Get` on a string attribute: Go returns the
zero value `""` when the attribute is unset. -/
def getString (o : Option String) : String := o.getD ""

/-- `schema.ResourceData.Get` on an int attribute: zero value `0` when unset. -/
def getInt (o : Option Int) : Int := o.getD 0

/-- `schema.ResourceData.Get` on the `records` set attribute:
`(*schema.Set).List()` of an unset set is empty. -/
def getStringList (o : Option (List String)) : List String := o.getD []

/-- `schema.ResourceData.Get` on the `tags` map attribute: empty map when unset. -/
def getTags (o : Option (List (String × String))) : List (String × String) := o.getD []

/-- Modelled from the spec: `expandTags` is not under `src/`; the spec says
the tag map is converted "into the service's metadata representation
(key/value passthrough)". -/
def expandTags (tags : List (String × String)) : List (String × String) := tags

/-- One call issued to the DNS service, with every argument the adapter passes. -/
inductive DnsCall where
  | upsert (resGroup zoneName name : String) (rtype : RecordType)
      (parameters : RecordSet) (eTag ifNoneMatch : String)
  | get (resGroup zoneName name : String) (rtype : RecordType)
  | del (resGroup zoneName name : String) (rtype : RecordType) (eTag : String)
deriving DecidableEq, Repr

/-- Is a call the upsert (`CreateOrUpdate`) operation? -/
def DnsCall.isUpsert : DnsCall → Bool
  | .upsert .. => true
  | _ => false

/-- Outcome of one adapter entry point: Go `return nil`, `return err`,
or a Go runtime panic (nil-pointer dereference). -/
inductive ROut where
  | ok
  | err (msg : String)
  | crash
deriving DecidableEq, Repr

/-- The `dnsClient` collaborator: each operation takes the service state
and the exact arguments the Go adapter passes, and returns the new
service state, the response value and the Go `error`. -/
structure DnsClient (σ : Type) where
  createOrUpdate : σ → String → String → String → RecordType → RecordSet → String → String →
    σ × RecordSetResp × Option String
  get : σ → String → String → String → RecordType → σ × RecordSetResp × Option String
  delete : σ → String → String → String → RecordType → String → σ × DeleteResp × Option String

/-- Result of running one adapter entry point: final service state, final
attribute bag, outcome, and the calls issued to the service in order. -/
structure StepResult (σ : Type) where
  srv : σ
  d : ResourceData
  out : ROut
  calls : List DnsCall
deriving Repr

/-! ### The opaque Azure resource identifier

`parseAzureResourceID` lives elsewhere in the repository (only its callers
are under `src/`), so it is modelled from the spec. -/

/-- Split a character list on `'/'`. -/
def splitSegs : List Char → List (List Char)
  | [] => [[]]
  | c :: cs =>
    if c = '/' then [] :: splitSegs cs
    else
      match splitSegs cs with
      | [] => [[c]]
      | s :: ss => (c :: s) :: ss

/-- The nonempty path segments of an identifier string. -/
def idSegs (s : String) : List String :=
  ((splitSegs s.data).filter (fun l => !l.isEmpty)).map String.mk

/-- Pair up consecutive path segments as key/value pairs. -/
def pairKV : List String → List (String × String)
  | k :: v :: rest => (k, v) :: pairKV rest
  | _ => []

/-- First-match association lookup on the path pairs. -/
def lookupKV (k : String) : List (String × String) → Option String
  | [] => none
  | (k', v) :: rest => if k' = k then some v else lookupKV k rest

/-- The parsed identifier: resource group plus the path key/value pairs,
mirroring `id.ResourceGroup` and `id.Path[...]` at the call sites. -/
structure AzureResourceID where
  ResourceGroup : String
  Path : List (String × String)
deriving DecidableEq, Repr

/-- Go map indexing `id.Path[k]`: a missing key yields the zero value `""`. -/
def lookupPath (p : List (String × String)) (k : String) : String :=
  (lookupKV k p).getD ""

/-- Modelled from the spec: `parseAzureResourceID` is not under `src/`.
Spec §4.1 Import: "Parses the opaque identifier into resource_group and,
within its path segments, locates the 'PTR' and 'dnszones' components as
the record name and zone name respectively; fails with ParseError if the
identifier does not contain a recognizable resource-group segment or
these two path components." -/
def parseAzureResourceID (s : String) : Option AzureResourceID :=
  let kvs := pairKV (idSegs s)
  match lookupKV "resourceGroups" kvs with
  | none => none
  | some rg =>
    match lookupKV "dnszones" kvs, lookupKV "PTR" kvs with
    | some _, some _ => some ⟨rg, kvs⟩
    | _, _ => none

/-- The Go error returned when the opaque identifier cannot be parsed. -/
def parseErrMsg (s : String) : String := "Cannot parse Azure Resource ID " ++ s

/-! ### The adapter entry points, translated from the Go source -/

/-- `expandAzureRmDnsPtrRecords`: converts the `records` set into the
SDK record list, one `PtrRecord` per hostname, and returns the (always
nil) error of its Go signature. -/
def expandAzureRmDnsPtrRecords (d : ResourceData) : List PtrRecord × Option String :=
  let recordStrings := getStringList d.records
  (recordStrings.map (fun fqdn => { Ptrdname := some fqdn }), none)

/-- The loop body of `flattenAzureRmDnsPtrRecords`: `*record.Ptrdname`
dereferences each record's pointer, so a nil `Ptrdname` is a runtime
panic, modelled as `none`. -/
def flattenLoop : List PtrRecord → Option (List String)
  | [] => some []
  | r :: rs =>
    match r.Ptrdname with
    | none => none
    | some n => (flattenLoop rs).map (fun l => n :: l)

/-- `flattenAzureRmDnsPtrRecords`: the Go body runs
`make([]string, 0, len(*records))` BEFORE its `if records != nil` check,
so a nil `records` pointer is dereferenced and panics — modelled as
`none`.  On a non-nil pointer the subsequent nil check passes and the
loop runs. -/
def flattenAzureRmDnsPtrRecords : Option (List PtrRecord) → Option (List String)
  | none => none
  | some rs => flattenLoop rs

/-- `resourceArmDnsPtrRecordRead`, translated line by line:
parse the id (returning the parse error on failure), issue `Get`,
return a wrapped error when the call's error is non-nil, clear the id
and succeed on status 404, otherwise write every field back into the
attribute bag (panicking inside `flattenAzureRmDnsPtrRecords` if the
response's record-list pointer is nil). -/
def resourceArmDnsPtrRecordRead {σ : Type} (c : DnsClient σ) (srv : σ) (d : ResourceData) :
    StepResult σ :=
  match parseAzureResourceID d.id with
  | none => ⟨srv, d, .err (parseErrMsg d.id), []⟩
  | some rid =>
    let resGroup := rid.ResourceGroup
    let name := lookupPath rid.Path "PTR"
    let zoneName := lookupPath rid.Path "dnszones"
    match c.get srv resGroup zoneName name .PTR with
    | (srv', resp, err) =>
      let calls := [DnsCall.get resGroup zoneName name .PTR]
      match err with
      | some e => ⟨srv', d, .err ("Error reading DNS PTR record " ++ name ++ ": " ++ e), calls⟩
      | none =>
        if resp.StatusCode = 404 then
          ⟨srv', { d with id := "" }, .ok, calls⟩
        else
          let d' := { d with
            name := some name
            resource_group_name := some resGroup
            zone_name := some zoneName
            ttl := some (resp.TTL.getD 0)
            etag := some (resp.Etag.getD "") }
          match flattenAzureRmDnsPtrRecords resp.PtrRecords with
          | none => ⟨srv', d', .crash, calls⟩
          | some recs =>
            ⟨srv', { d' with records := some recs, tags := some resp.Metadata }, .ok, calls⟩

/-- `resourceArmDnsPtrRecordCreateOrUpdate`, translated line by line:
read the attributes (Go zero values when unset), expand tags and records
(the expansion error is never checked, as in the source), issue the
single upsert with etag from the bag and an empty if-none-match token,
propagate a non-nil call error, fail if the response carries no ID,
otherwise persist the ID and finish by calling Read. -/
def resourceArmDnsPtrRecordCreateOrUpdate {σ : Type} (c : DnsClient σ) (srv : σ)
    (d : ResourceData) : StepResult σ :=
  let name := getString d.name
  let resGroup := getString d.resource_group_name
  let zoneName := getString d.zone_name
  let ttl := getInt d.ttl
  let eTag := getString d.etag
  let metadata := expandTags (getTags d.tags)
  let records := (expandAzureRmDnsPtrRecords d).1
  let props : RecordSetProperties :=
    { Metadata := metadata, TTL := some ttl, PtrRecords := some records }
  let parameters : RecordSet := { Name := some name, Properties := some props }
  match c.createOrUpdate srv resGroup zoneName name .PTR parameters eTag "" with
  | (srv', resp, err) =>
    let calls := [DnsCall.upsert resGroup zoneName name .PTR parameters eTag ""]
    match err with
    | some e => ⟨srv', d, .err e, calls⟩
    | none =>
      match resp.ID with
      | none =>
        ⟨srv', d, .err ("Cannot read DNS PTR Record " ++ name ++
          " (resource group " ++ resGroup ++ ") ID"), calls⟩
      | some newId =>
        let r := resourceArmDnsPtrRecordRead c srv' { d with id := newId }
        ⟨r.srv, r.d, r.out, calls ++ r.calls⟩

/-- Go `fmt` rendering of an `error` value under `%s`: a nil error
interface prints as `%!s(<nil>)`. -/
def formatGoErr : Option String → String
  | none => "%!s(<nil>)"
  | some e => e

/-- `resourceArmDnsPtrRecordDelete`, translated line by line: parse the
id, issue `Delete` with an empty etag, and fail (wrapping name and the
call's error value) exactly when the status is not `http.StatusOK`. -/
def resourceArmDnsPtrRecordDelete {σ : Type} (c : DnsClient σ) (srv : σ) (d : ResourceData) :
    StepResult σ :=
  match parseAzureResourceID d.id with
  | none => ⟨srv, d, .err (parseErrMsg d.id), []⟩
  | some rid =>
    let resGroup := rid.ResourceGroup
    let name := lookupPath rid.Path "PTR"
    let zoneName := lookupPath rid.Path "dnszones"
    match c.delete srv resGroup zoneName name .PTR "" with
    | (srv', resp, error) =>
      let calls := [DnsCall.del resGroup zoneName name .PTR ""]
      if resp.StatusCode ≠ 200 then
        ⟨srv', d, .err ("Error deleting DNS PTR Record " ++ name ++ ": " ++ formatGoErr error),
          calls⟩
      else
        ⟨srv', d, .ok, calls⟩

/-- An empty attribute bag: no id, every attribute unset. -/
def emptyResourceData : ResourceData := ⟨"", none, none, none, none, none, none, none⟩

/-- `schema.ImportStatePassthrough`: the import identifier string is used
unchanged as the resource id; no attribute is populated. -/
def importStatePassthrough (id : String) : ResourceData :=
  { emptyResourceData with id := id }

/-! ### A faithful model of the DnsService collaborator

Needed for the claims about the composition of CreateOrUpdate and Read;
the service itself is external to the repository, so it is modelled from
spec §6: CreateOrUpdate stores the record and returns its id, Get returns
the stored record or a "not found" status, Delete removes it. -/

/-- The key under which the service stores a PTR record set:
(resource group, zone, record name); the type discriminator is fixed. -/
abbrev DnsKey := String × String × String

/-- What the service stores for one record set. -/
structure StoredRecord where
  ttl : Int
  ptrRecords : List PtrRecord
  metadata : List (String × String)
  etag : String
deriving DecidableEq, Repr

/-- First-match lookup in the service's store. -/
def storeLookup (k : DnsKey) : List (DnsKey × StoredRecord) → Option StoredRecord
  | [] => none
  | (k', v) :: rest => if k' = k then some v else storeLookup k rest

/-- Remove every binding of a key from the service's store. -/
def storeRemove (k : DnsKey) : List (DnsKey × StoredRecord) → List (DnsKey × StoredRecord)
  | [] => []
  | (k', v) :: rest =>
    if k' = k then storeRemove k rest else (k', v) :: storeRemove k rest

/-- Replace the binding of a key in the service's store. -/
def storeUpsert (k : DnsKey) (v : StoredRecord) (st : List (DnsKey × StoredRecord)) :
    List (DnsKey × StoredRecord) :=
  (k, v) :: storeRemove k st

/-- Build the segments `[s1, ..., sn]` into the path string `/s1/.../sn`. -/
def joinSlash : List String → String
  | [] => ""
  | s :: ss => "/" ++ s ++ joinSlash ss

/-- Modelled from the spec: the opaque identifier format the service
assigns, per the spec §8 example
`.../resourceGroups/rg1/.../dnszones/zone1/PTR/ptr1`. -/
def mkRecordSetId (sub resGroup zoneName name : String) : String :=
  joinSlash ["subscriptions", sub, "resourceGroups", resGroup,
    "providers", "Microsoft.Network", "dnszones", zoneName, "PTR", name]

/-- The path key/value pairs parsed from `mkRecordSetId`. -/
def ptrKvs (sub resGroup zoneName name : String) : List (String × String) :=
  [("subscriptions", sub), ("resourceGroups", resGroup),
   ("providers", "Microsoft.Network"), ("dnszones", zoneName), ("PTR", name)]

/-- The state of the modelled DNS service: the subscription its ids name,
the record store, and a counter from which fresh etags are minted. -/
structure DnsServiceState where
  sub : String
  store : List (DnsKey × StoredRecord)
  etagCounter : Nat
deriving DecidableEq, Repr

/-- Modelled from the spec: the DnsService collaborator (§6) as a
key-value store.  CreateOrUpdate overwrites the stored record and answers
with the assigned identifier and a fresh etag; Get answers 200 with the
stored record, or 404 with a nil error when the key is absent; Delete
removes the key and answers 200.  Per §5 the adapter's etag is only a
soft hint, so the model ignores the concurrency tokens. -/
def dnsServiceModel : DnsClient DnsServiceState where
  createOrUpdate := fun st resGroup zoneName name _rtype parameters _eTag _ifNoneMatch =>
    let props := parameters.Properties.getD ⟨[], none, none⟩
    let newEtag := "etag-" ++ toString st.etagCounter
    let stored : StoredRecord :=
      ⟨props.TTL.getD 0, props.PtrRecords.getD [], props.Metadata, newEtag⟩
    let st' : DnsServiceState :=
      ⟨st.sub, storeUpsert (resGroup, zoneName, name) stored st.store, st.etagCounter + 1⟩
    (st', ⟨200, some (mkRecordSetId st.sub resGroup zoneName name), some newEtag,
      props.TTL, props.PtrRecords, props.Metadata⟩, none)
  get := fun st resGroup zoneName name _rtype =>
    match storeLookup (resGroup, zoneName, name) st.store with
    | some stored =>
      (st, ⟨200, some (mkRecordSetId st.sub resGroup zoneName name), some stored.etag,
        some stored.ttl, some stored.ptrRecords, stored.metadata⟩, none)
    | none => (st, ⟨404, none, none, none, none, []⟩, none)
  delete := fun st resGroup zoneName name _rtype _eTag =>
    (⟨st.sub, storeRemove (resGroup, zoneName, name) st.store, st.etagCounter⟩, ⟨200⟩, none)

/-- A record-set segment is usable inside the identifier format when it
is nonempty and contains no path separator. -/
def goodSeg (s : String) : Prop := s ≠ "" ∧ '/' ∉ s.data

instance (s : String) : Decidable (goodSeg s) := by
  unfold goodSeg; infer_instance

/-! ### Concrete clients and data for witnesses and counterexamples -/

/-- A stateless client answering every operation with fixed responses,
used to probe single entry points. -/
def constClient (up : RecordSetResp × Option String) (g : RecordSetResp × Option String)
    (del : DeleteResp × Option String) : DnsClient Unit where
  createOrUpdate := fun s _ _ _ _ _ _ _ => (s, up.1, up.2)
  get := fun s _ _ _ _ => (s, g.1, g.2)
  delete := fun s _ _ _ _ _ => (s, del.1, del.2)

/-- A response carrying only a status code. -/
def respEmpty (code : Nat) : RecordSetResp := ⟨code, none, none, none, none, []⟩

/-- A concrete parseable identifier. -/
def cxId : String := mkRecordSetId "sub0" "rg1" "zone1" "ptr1"

/-- The attribute bag holding only that identifier (as after import). -/
def cxD : ResourceData := importStatePassthrough cxId

/-- The parse of `cxId`. -/
def cxRid : AzureResourceID := ⟨"rg1", ptrKvs "sub0" "rg1" "zone1" "ptr1"⟩

/-- Client whose Get answers status 404 together with a non-nil
transport error. -/
def cl404WithErr : DnsClient Unit :=
  constClient (respEmpty 200, none) (respEmpty 404, some "boom") (⟨200⟩, none)

/-- Client whose Get answers status 500 with a nil transport error and a
non-nil (empty) record list. -/
def cl500NoErr : DnsClient Unit :=
  constClient (respEmpty 200, none) (⟨500, none, none, none, some [], []⟩, none) (⟨200⟩, none)

/-- Client answering 200 everywhere, with no ID in the upsert response. -/
def clOk : DnsClient Unit :=
  constClient (respEmpty 200, none) (respEmpty 200, none) (⟨200⟩, none)

/-- Client whose Delete answers status 200 alongside a non-nil transport
error, and whose upsert response carries a server-assigned ID. -/
def clDel200Err : DnsClient Unit :=
  constClient (⟨200, some "srv-id", none, none, none, []⟩, none) (respEmpty 404, none)
    (⟨200⟩, some "transport-cause")

/-- Client whose Delete answers status 500 with an underlying cause. -/
def clDel500 : DnsClient Unit :=
  constClient (respEmpty 200, none) (respEmpty 200, none) (⟨500⟩, some "cause")

/-! ### Lemmas about the identifier format -/

theorem data_append (s t : String) : (s ++ t).data = s.data ++ t.data := by
  cases s; cases t; rfl

theorem mk_data (s : String) : String.mk s.data = s := rfl

theorem splitSegs_cons_slash (b : List Char) : splitSegs ('/' :: b) = [] :: splitSegs b := by
  simp [splitSegs]

theorem splitSegs_append (a b : List Char) (h : '/' ∉ a) :
    splitSegs (a ++ '/' :: b) = a :: splitSegs b := by
  induction a with
  | nil => simp [splitSegs]
  | cons c a' ih =>
    have hc : ¬ c = '/' := by intro hc; exact h (by simp [hc])
    have h' : '/' ∉ a' := fun hm => h (List.mem_cons_of_mem _ hm)
    simp [splitSegs, hc, ih h']

theorem splitSegs_no_slash (a : List Char) (h : '/' ∉ a) : splitSegs a = [a] := by
  induction a with
  | nil => rfl
  | cons c a' ih =>
    have hc : ¬ c = '/' := by intro hc; exact h (by simp [hc])
    have h' : '/' ∉ a' := fun hm => h (List.mem_cons_of_mem _ hm)
    simp [splitSegs, hc, ih h']

theorem splitSegs_joinSlash (ss : List String) (h : ∀ s ∈ ss, '/' ∉ s.data) :
    splitSegs (joinSlash ss).data = [] :: ss.map String.data := by
  induction ss with
  | nil => rfl
  | cons s ss ih =>
    have hs : '/' ∉ s.data := h s (List.mem_cons_self _ _)
    have hss : ∀ t ∈ ss, '/' ∉ t.data := fun t ht => h t (List.mem_cons_of_mem _ ht)
    have hd : (joinSlash (s :: ss)).data = '/' :: (s.data ++ (joinSlash ss).data) := by
      simp only [joinSlash]
      rw [data_append, data_append]
      rfl
    rw [hd, splitSegs_cons_slash]
    cases ss with
    | nil =>
      rw [show (joinSlash ([] : List String)).data = [] from rfl, List.append_nil,
        splitSegs_no_slash s.data hs]
      rfl
    | cons t ts =>
      have hdt : (joinSlash (t :: ts)).data = '/' :: (t.data ++ (joinSlash ts).data) := by
        simp only [joinSlash]
        rw [data_append, data_append]
        rfl
      have ih' := ih hss
      rw [hdt, splitSegs_cons_slash] at ih'
      injection ih' with h1 hinner
      rw [hdt, splitSegs_append _ _ hs, hinner]
      rfl

theorem idSegs_joinSlash (ss : List String) (h : ∀ s ∈ ss, goodSeg s) :
    idSegs (joinSlash ss) = ss := by
  have hfil : ∀ ts : List String, (∀ s ∈ ts, s ≠ "") →
      ((ts.map String.data).filter (fun l => !l.isEmpty)).map String.mk = ts := by
    intro ts
    induction ts with
    | nil => intro _; rfl
    | cons t ts ih =>
      intro hts
      have ht : t ≠ "" := hts t (List.mem_cons_self _ _)
      have htd : t.data.isEmpty = false := by
        cases hd : t.data with
        | nil =>
          have hteq : t = String.mk [] := by rw [← hd, mk_data]
          exact absurd hteq ht
        | cons c cs => rfl
      have ih' := ih (fun s hs => hts s (List.mem_cons_of_mem _ hs))
      simp [List.filter_cons, htd, mk_data, ih']
  unfold idSegs
  rw [splitSegs_joinSlash ss (fun s hs => (h s hs).2)]
  simp only [List.filter_cons, List.isEmpty_nil, Bool.not_true, Bool.false_eq_true, if_false]
  exact hfil ss (fun s hs => (h s hs).1)

theorem lookupKV_ptrKvs_resourceGroups (sub rg zone name : String) :
    lookupKV "resourceGroups" (ptrKvs sub rg zone name) = some rg := by
  simp [ptrKvs, lookupKV]

theorem lookupKV_ptrKvs_dnszones (sub rg zone name : String) :
    lookupKV "dnszones" (ptrKvs sub rg zone name) = some zone := by
  simp [ptrKvs, lookupKV]

theorem lookupKV_ptrKvs_PTR (sub rg zone name : String) :
    lookupKV "PTR" (ptrKvs sub rg zone name) = some name := by
  simp [ptrKvs, lookupKV]

theorem parse_mkRecordSetId (sub rg zone name : String)
    (hsub : goodSeg sub) (hrg : goodSeg rg) (hzone : goodSeg zone) (hname : goodSeg name) :
    parseAzureResourceID (mkRecordSetId sub rg zone name) =
      some ⟨rg, ptrKvs sub rg zone name⟩ := by
  have hsegs : idSegs (mkRecordSetId sub rg zone name) =
      ["subscriptions", sub, "resourceGroups", rg, "providers", "Microsoft.Network",
       "dnszones", zone, "PTR", name] := by
    unfold mkRecordSetId
    refine idSegs_joinSlash _ ?_
    intro s hs
    simp only [List.mem_cons, List.not_mem_nil, or_false] at hs
    rcases hs with rfl | rfl | rfl | rfl | rfl | rfl | rfl | rfl | rfl | rfl
    · exact ⟨by decide, by decide⟩
    · exact hsub
    · exact ⟨by decide, by decide⟩
    · exact hrg
    · exact ⟨by decide, by decide⟩
    · exact ⟨by decide, by decide⟩
    · exact ⟨by decide, by decide⟩
    · exact hzone
    · exact ⟨by decide, by decide⟩
    · exact hname
  simp only [parseAzureResourceID]
  rw [hsegs]
  rw [show pairKV ["subscriptions", sub, "resourceGroups", rg, "providers",
    "Microsoft.Network", "dnszones", zone, "PTR", name] = ptrKvs sub rg zone name from rfl]
  rw [lookupKV_ptrKvs_resourceGroups, lookupKV_ptrKvs_dnszones, lookupKV_ptrKvs_PTR]

/-! ### Shared evaluation lemmas -/

theorem flattenLoop_expand (l : List String) :
    flattenLoop (l.map (fun fqdn => { Ptrdname := some fqdn })) = some l := by
  induction l with
  | nil => rfl
  | cons a l ih => simp [flattenLoop, ih]

/-- Full evaluation of CreateOrUpdate (including its trailing Read)
against the modelled DNS service, from any initial service state, for a
fully populated attribute bag whose segments fit the identifier format. -/
theorem cou_model_eval (sub rg zone name : String) (recs : List String) (ttl : Int)
    (tags : List (String × String)) (store0 : List (DnsKey × StoredRecord)) (ctr : Nat)
    (hsub : goodSeg sub) (hrg : goodSeg rg) (hzone : goodSeg zone) (hname : goodSeg name) :
    resourceArmDnsPtrRecordCreateOrUpdate dnsServiceModel ⟨sub, store0, ctr⟩
      ⟨"", some name, some rg, some zone, some recs, some ttl, none, some tags⟩ =
    ⟨⟨sub, storeUpsert (rg, zone, name)
          ⟨ttl, recs.map (fun fqdn => ⟨some fqdn⟩), tags, "etag-" ++ toString ctr⟩ store0,
        ctr + 1⟩,
      ⟨mkRecordSetId sub rg zone name, some name, some rg, some zone, some recs, some ttl,
        some ("etag-" ++ toString ctr), some tags⟩,
      ROut.ok,
      [DnsCall.upsert rg zone name RecordType.PTR
          ⟨some name, some ⟨tags, some ttl, some (recs.map (fun fqdn => ⟨some fqdn⟩))⟩⟩ "" "",
        DnsCall.get rg zone name RecordType.PTR]⟩ := by
  have hparse := parse_mkRecordSetId sub rg zone name hsub hrg hzone hname
  simp [resourceArmDnsPtrRecordCreateOrUpdate, resourceArmDnsPtrRecordRead, dnsServiceModel,
    getString, getInt, getTags, getStringList, expandTags, expandAzureRmDnsPtrRecords,
    hparse, lookupPath, lookupKV_ptrKvs_PTR, lookupKV_ptrKvs_dnszones, storeUpsert, storeLookup,
    flattenAzureRmDnsPtrRecords, flattenLoop_expand, parseErrMsg]

/-- Read never issues an upsert call, whatever the client answers. -/
theorem read_calls_no_upsert {σ : Type} (c : DnsClient σ) (srv : σ) (d : ResourceData) :
    ((resourceArmDnsPtrRecordRead c srv d).calls).filter DnsCall.isUpsert = [] := by
  rcases hp : parseAzureResourceID d.id with _ | rid
  · simp [resourceArmDnsPtrRecordRead, hp]
  · rcases hg : c.get srv rid.ResourceGroup (lookupPath rid.Path "dnszones")
        (lookupPath rid.Path "PTR") RecordType.PTR with ⟨srv', resp, err⟩
    rcases err with _ | e
    · simp only [resourceArmDnsPtrRecordRead, hp, hg]
      by_cases h4 : resp.StatusCode = 404
      · simp [h4, DnsCall.isUpsert]
      · cases hf : flattenAzureRmDnsPtrRecords resp.PtrRecords <;>
          simp [h4, hf, DnsCall.isUpsert]
    · simp [resourceArmDnsPtrRecordRead, hp, hg, DnsCall.isUpsert]

/-! ### The claims -/

/-- C1 (amended): Read's behaviour is decided first by the Get call's
transport-level error: when it is non-nil, Read returns a RemoteError
embedding the record name and the cause, even if the status is
"not found"; when it is nil and the status is "not found" (404), Read
reports Absent (clears the resource id and returns success); when it is
nil and the status is anything else, Read never returns an error (it
proceeds to populate state, and can only panic on a nil record-list
pointer). -/
theorem dns_ptr_C1_read_notfound {σ : Type} (c : DnsClient σ) (srv : σ) (d : ResourceData)
    (rid : AzureResourceID) (srv' : σ) (resp : RecordSetResp) (err : Option String)
    (hparse : parseAzureResourceID d.id = some rid)
    (hget : c.get srv rid.ResourceGroup (lookupPath rid.Path "dnszones")
      (lookupPath rid.Path "PTR") RecordType.PTR = (srv', resp, err)) :
    (∀ e, err = some e →
      (resourceArmDnsPtrRecordRead c srv d).out =
        ROut.err ("Error reading DNS PTR record " ++ lookupPath rid.Path "PTR" ++ ": " ++ e)) ∧
    (err = none → resp.StatusCode = 404 →
      (resourceArmDnsPtrRecordRead c srv d).out = ROut.ok ∧
        (resourceArmDnsPtrRecordRead c srv d).d.id = "") ∧
    (err = none → resp.StatusCode ≠ 404 →
      ∀ m, (resourceArmDnsPtrRecordRead c srv d).out ≠ ROut.err m) := by
  refine ⟨?_, ?_, ?_⟩
  · intro e he
    subst he
    simp [resourceArmDnsPtrRecordRead, hparse, hget]
  · intro he h4
    subst he
    simp [resourceArmDnsPtrRecordRead, hparse, hget, h4]
  · intro he h4 m
    subst he
    cases hf : flattenAzureRmDnsPtrRecords resp.PtrRecords <;>
      simp [resourceArmDnsPtrRecordRead, hparse, hget, h4, hf]

/-- C1 (counterexample): the claim as stated is false on the code.  On a
Get outcome whose status is 404 "not found" but whose transport error is
non-nil, Read returns an error instead of the claimed Absent; and on a
non-success status 500 with a nil transport error, Read returns success
instead of the claimed RemoteError. -/
theorem dns_ptr_C1_counterexample :
    (resourceArmDnsPtrRecordRead cl404WithErr () cxD).out =
      ROut.err "Error reading DNS PTR record ptr1: boom" ∧
    (resourceArmDnsPtrRecordRead cl500NoErr () cxD).out = ROut.ok := by
  constructor <;> rfl

/-- C1 (witness): the amended theorem applied to a concrete client whose
Get answers 404 with a non-nil error. -/
theorem dns_ptr_C1_witness :
    (parseAzureResourceID cxD.id = some cxRid ∧
      cl404WithErr.get () cxRid.ResourceGroup (lookupPath cxRid.Path "dnszones")
        (lookupPath cxRid.Path "PTR") RecordType.PTR = ((), respEmpty 404, some "boom")) ∧
    ((∀ e, (some "boom" : Option String) = some e →
        (resourceArmDnsPtrRecordRead cl404WithErr () cxD).out =
          ROut.err ("Error reading DNS PTR record " ++ lookupPath cxRid.Path "PTR" ++
            ": " ++ e)) ∧
      ((some "boom" : Option String) = none → (respEmpty 404).StatusCode = 404 →
        (resourceArmDnsPtrRecordRead cl404WithErr () cxD).out = ROut.ok ∧
          (resourceArmDnsPtrRecordRead cl404WithErr () cxD).d.id = "") ∧
      ((some "boom" : Option String) = none → (respEmpty 404).StatusCode ≠ 404 →
        ∀ m, (resourceArmDnsPtrRecordRead cl404WithErr () cxD).out ≠ ROut.err m)) :=
  ⟨⟨by decide, by decide⟩,
    dns_ptr_C1_read_notfound cl404WithErr () cxD cxRid () (respEmpty 404) (some "boom")
      (by decide) (by decide)⟩

/-- C2 (counterexample): the claim as stated is false on the code.  With
name, resource_group_name, zone_name and ttl all absent, CreateOrUpdate
does not fail with a ValidationError before dispatch: it issues the
upsert call anyway, carrying the Go zero values. -/
theorem dns_ptr_C2_counterexample :
    (resourceArmDnsPtrRecordCreateOrUpdate clOk () emptyResourceData).calls.head? =
      some (DnsCall.upsert "" "" "" RecordType.PTR
        ⟨some "", some ⟨[], some 0, some []⟩⟩ "" "") := by decide

/-- C2 (amended): CreateOrUpdate performs no presence validation at all:
whenever name, resource_group, zone_name or ttl is absent, the attribute
reads produce the Go zero values (empty string, 0) and the upsert call is
still issued, carrying those zero values. -/
theorem dns_ptr_C2_no_validation {σ : Type} (c : DnsClient σ) (srv : σ) (d : ResourceData)
    (_h : d.name = none ∨ d.resource_group_name = none ∨ d.zone_name = none ∨ d.ttl = none) :
    (resourceArmDnsPtrRecordCreateOrUpdate c srv d).calls.head? =
      some (DnsCall.upsert (getString d.resource_group_name) (getString d.zone_name)
        (getString d.name) RecordType.PTR
        ⟨some (getString d.name),
          some ⟨expandTags (getTags d.tags), some (getInt d.ttl),
            some (expandAzureRmDnsPtrRecords d).1⟩⟩
        (getString d.etag) "") := by
  rcases hc : c.createOrUpdate srv (getString d.resource_group_name) (getString d.zone_name)
      (getString d.name) RecordType.PTR
      ⟨some (getString d.name),
        some ⟨expandTags (getTags d.tags), some (getInt d.ttl),
          some (expandAzureRmDnsPtrRecords d).1⟩⟩
      (getString d.etag) "" with ⟨srv', resp, err⟩
  rcases err with _ | e
  · rcases hid : resp.ID with _ | newId <;>
      simp [resourceArmDnsPtrRecordCreateOrUpdate, hc, hid]
  · simp [resourceArmDnsPtrRecordCreateOrUpdate, hc]

/-- C2 (witness): the amended theorem applied to the fully absent bag. -/
theorem dns_ptr_C2_witness :
    (emptyResourceData.name = none ∨ emptyResourceData.resource_group_name = none ∨
      emptyResourceData.zone_name = none ∨ emptyResourceData.ttl = none) ∧
    (resourceArmDnsPtrRecordCreateOrUpdate clOk () emptyResourceData).calls.head? =
      some (DnsCall.upsert (getString emptyResourceData.resource_group_name)
        (getString emptyResourceData.zone_name) (getString emptyResourceData.name)
        RecordType.PTR
        ⟨some (getString emptyResourceData.name),
          some ⟨expandTags (getTags emptyResourceData.tags),
            some (getInt emptyResourceData.ttl),
            some (expandAzureRmDnsPtrRecords emptyResourceData).1⟩⟩
        (getString emptyResourceData.etag) "") :=
  ⟨Or.inl rfl, dns_ptr_C2_no_validation clOk () emptyResourceData (Or.inl rfl)⟩

/-- C3: Delete succeeds exactly when the Delete call's status is OK
(`http.StatusOK`, 200) — the transport-level error value is ignored in
that case; for every other status it returns an error embedding the
record name and the underlying cause; and it never modifies the
attribute bag. -/
theorem dns_ptr_C3_delete {σ : Type} (c : DnsClient σ) (srv : σ) (d : ResourceData)
    (rid : AzureResourceID) (srv' : σ) (resp : DeleteResp) (err : Option String)
    (hparse : parseAzureResourceID d.id = some rid)
    (hdel : c.delete srv rid.ResourceGroup (lookupPath rid.Path "dnszones")
      (lookupPath rid.Path "PTR") RecordType.PTR "" = (srv', resp, err)) :
    ((resourceArmDnsPtrRecordDelete c srv d).out = ROut.ok ↔ resp.StatusCode = 200) ∧
    (resp.StatusCode ≠ 200 →
      (resourceArmDnsPtrRecordDelete c srv d).out =
        ROut.err ("Error deleting DNS PTR Record " ++ lookupPath rid.Path "PTR" ++ ": " ++
          formatGoErr err)) ∧
    (resourceArmDnsPtrRecordDelete c srv d).d = d := by
  by_cases h2 : resp.StatusCode = 200
  · simp [resourceArmDnsPtrRecordDelete, hparse, hdel, h2]
  · simp [resourceArmDnsPtrRecordDelete, hparse, hdel, h2]

/-- C3 (witness): the theorem applied to a concrete client whose Delete
answers 200 together with a non-nil transport error (which is ignored). -/
theorem dns_ptr_C3_witness :
    (parseAzureResourceID cxD.id = some cxRid ∧
      clDel200Err.delete () cxRid.ResourceGroup (lookupPath cxRid.Path "dnszones")
        (lookupPath cxRid.Path "PTR") RecordType.PTR "" =
        ((), ⟨200⟩, some "transport-cause")) ∧
    (((resourceArmDnsPtrRecordDelete clDel200Err () cxD).out = ROut.ok ↔
        (⟨200⟩ : DeleteResp).StatusCode = 200) ∧
      ((⟨200⟩ : DeleteResp).StatusCode ≠ 200 →
        (resourceArmDnsPtrRecordDelete clDel200Err () cxD).out =
          ROut.err ("Error deleting DNS PTR Record " ++ lookupPath cxRid.Path "PTR" ++
            ": " ++ formatGoErr (some "transport-cause"))) ∧
      (resourceArmDnsPtrRecordDelete clDel200Err () cxD).d = cxD) :=
  ⟨⟨by decide, by decide⟩,
    dns_ptr_C3_delete clDel200Err () cxD cxRid () ⟨200⟩ (some "transport-cause")
      (by decide) (by decide)⟩

/-- C4: for every valid desired record, CreateOrUpdate followed by its
trailing Read against the modelled service succeeds and yields back
exactly the desired hostname list (hence the same set, order-independent)
and the desired ttl; and expanding the desired records to the service's
record list and flattening back preserves the hostnames. -/
theorem dns_ptr_C4_roundtrip (sub rg zone name : String) (recs : List String) (ttl : Int)
    (tags : List (String × String)) (store0 : List (DnsKey × StoredRecord)) (ctr : Nat)
    (hsub : goodSeg sub) (hrg : goodSeg rg) (hzone : goodSeg zone) (hname : goodSeg name) :
    (resourceArmDnsPtrRecordCreateOrUpdate dnsServiceModel ⟨sub, store0, ctr⟩
        ⟨"", some name, some rg, some zone, some recs, some ttl, none, some tags⟩).out =
      ROut.ok ∧
    (∃ rs, (resourceArmDnsPtrRecordCreateOrUpdate dnsServiceModel ⟨sub, store0, ctr⟩
        ⟨"", some name, some rg, some zone, some recs, some ttl, none, some tags⟩).d.records =
          some rs ∧ rs.toFinset = recs.toFinset) ∧
    (resourceArmDnsPtrRecordCreateOrUpdate dnsServiceModel ⟨sub, store0, ctr⟩
        ⟨"", some name, some rg, some zone, some recs, some ttl, none, some tags⟩).d.ttl =
      some ttl ∧
    flattenAzureRmDnsPtrRecords (some (expandAzureRmDnsPtrRecords
        ⟨"", some name, some rg, some zone, some recs, some ttl, none, some tags⟩).1) =
      some recs := by
  rw [cou_model_eval sub rg zone name recs ttl tags store0 ctr hsub hrg hzone hname]
  refine ⟨rfl, ⟨recs, rfl, rfl⟩, rfl, ?_⟩
  simp [flattenAzureRmDnsPtrRecords, expandAzureRmDnsPtrRecords, getStringList,
    flattenLoop_expand]

/-- C4 (witness): the spec's own example — records
{host1.example.com, host2.example.com}, ttl 300, tags {env: prod}. -/
theorem dns_ptr_C4_witness :
    (goodSeg "sub0" ∧ goodSeg "rg1" ∧ goodSeg "zone1" ∧ goodSeg "ptr1") ∧
    ((resourceArmDnsPtrRecordCreateOrUpdate dnsServiceModel ⟨"sub0", [], 0⟩
        ⟨"", some "ptr1", some "rg1", some "zone1",
          some ["host1.example.com", "host2.example.com"], some 300, none,
          some [("env", "prod")]⟩).out = ROut.ok ∧
      (∃ rs, (resourceArmDnsPtrRecordCreateOrUpdate dnsServiceModel ⟨"sub0", [], 0⟩
          ⟨"", some "ptr1", some "rg1", some "zone1",
            some ["host1.example.com", "host2.example.com"], some 300, none,
            some [("env", "prod")]⟩).d.records = some rs ∧
        rs.toFinset = (["host1.example.com", "host2.example.com"] : List String).toFinset) ∧
      (resourceArmDnsPtrRecordCreateOrUpdate dnsServiceModel ⟨"sub0", [], 0⟩
        ⟨"", some "ptr1", some "rg1", some "zone1",
          some ["host1.example.com", "host2.example.com"], some 300, none,
          some [("env", "prod")]⟩).d.ttl = some 300 ∧
      flattenAzureRmDnsPtrRecords (some (expandAzureRmDnsPtrRecords
          ⟨"", some "ptr1", some "rg1", some "zone1",
            some ["host1.example.com", "host2.example.com"], some 300, none,
            some [("env", "prod")]⟩).1) =
        some ["host1.example.com", "host2.example.com"]) :=
  ⟨⟨by decide, by decide, by decide, by decide⟩,
    dns_ptr_C4_roundtrip "sub0" "rg1" "zone1" "ptr1"
      ["host1.example.com", "host2.example.com"] 300 [("env", "prod")] [] 0
      (by decide) (by decide) (by decide) (by decide)⟩

/-- C5: the identifier assigned by the modelled service's CreateOrUpdate
is `mkRecordSetId`; that identifier re-parses losslessly into the triple
(resource group, zone name, record name); and Read after the import
pass-through does not fail with a ParseError — it reaches the Get call
carrying exactly that triple, whatever client it runs against. -/
theorem dns_ptr_C5_import_roundtrip (sub rg zone name : String)
    (hsub : goodSeg sub) (hrg : goodSeg rg) (hzone : goodSeg zone) (hname : goodSeg name) :
    (∀ (st : List (DnsKey × StoredRecord)) (ctr : Nat) (params : RecordSet) (et inm : String),
      (dnsServiceModel.createOrUpdate ⟨sub, st, ctr⟩ rg zone name RecordType.PTR params et
        inm).2.1.ID = some (mkRecordSetId sub rg zone name)) ∧
    (∃ rid, parseAzureResourceID (mkRecordSetId sub rg zone name) = some rid ∧
      rid.ResourceGroup = rg ∧ lookupPath rid.Path "dnszones" = zone ∧
      lookupPath rid.Path "PTR" = name) ∧
    (∀ (σ : Type) (c : DnsClient σ) (srv : σ),
      (resourceArmDnsPtrRecordRead c srv
        (importStatePassthrough (mkRecordSetId sub rg zone name))).calls.head? =
      some (DnsCall.get rg zone name RecordType.PTR)) := by
  have hparse := parse_mkRecordSetId sub rg zone name hsub hrg hzone hname
  have hz : lookupPath (ptrKvs sub rg zone name) "dnszones" = zone := by
    simp [lookupPath, lookupKV_ptrKvs_dnszones]
  have hn : lookupPath (ptrKvs sub rg zone name) "PTR" = name := by
    simp [lookupPath, lookupKV_ptrKvs_PTR]
  refine ⟨fun st ctr params et inm => rfl,
    ⟨⟨rg, ptrKvs sub rg zone name⟩, hparse, rfl, hz, hn⟩, ?_⟩
  intro σ c srv
  simp only [resourceArmDnsPtrRecordRead, importStatePassthrough, emptyResourceData,
    hparse, hz, hn]
  rcases hg : c.get srv rg zone name RecordType.PTR with ⟨srv', resp, err⟩
  rcases err with _ | e
  · by_cases h4 : resp.StatusCode = 404
    · simp [hg, h4]
    · cases hf : flattenAzureRmDnsPtrRecords resp.PtrRecords <;> simp [hg, h4, hf]
  · simp [hg]

/-- C5 (witness): the theorem at a concrete identifier. -/
theorem dns_ptr_C5_witness :
    (goodSeg "sub0" ∧ goodSeg "rg1" ∧ goodSeg "zone1" ∧ goodSeg "ptr1") ∧
    ((∀ (st : List (DnsKey × StoredRecord)) (ctr : Nat) (params : RecordSet) (et inm : String),
        (dnsServiceModel.createOrUpdate ⟨"sub0", st, ctr⟩ "rg1" "zone1" "ptr1" RecordType.PTR
          params et inm).2.1.ID = some (mkRecordSetId "sub0" "rg1" "zone1" "ptr1")) ∧
      (∃ rid, parseAzureResourceID (mkRecordSetId "sub0" "rg1" "zone1" "ptr1") = some rid ∧
        rid.ResourceGroup = "rg1" ∧ lookupPath rid.Path "dnszones" = "zone1" ∧
        lookupPath rid.Path "PTR" = "ptr1") ∧
      (∀ (σ : Type) (c : DnsClient σ) (srv : σ),
        (resourceArmDnsPtrRecordRead c srv
          (importStatePassthrough (mkRecordSetId "sub0" "rg1" "zone1" "ptr1"))).calls.head? =
        some (DnsCall.get "rg1" "zone1" "ptr1" RecordType.PTR))) :=
  ⟨⟨by decide, by decide, by decide, by decide⟩,
    dns_ptr_C5_import_roundtrip "sub0" "rg1" "zone1" "ptr1"
      (by decide) (by decide) (by decide) (by decide)⟩

/-- C6: invoking CreateOrUpdate twice with the same desired state against
the modelled service leaves the same stored remote record — same record
list, ttl and metadata — differing only in the etag. -/
theorem dns_ptr_C6_idempotent (sub rg zone name : String) (recs : List String) (ttl : Int)
    (tags : List (String × String)) (store0 : List (DnsKey × StoredRecord)) (ctr : Nat)
    (hsub : goodSeg sub) (hrg : goodSeg rg) (hzone : goodSeg zone) (hname : goodSeg name) :
    ∃ st1 st2 : StoredRecord,
      storeLookup (rg, zone, name)
        (resourceArmDnsPtrRecordCreateOrUpdate dnsServiceModel ⟨sub, store0, ctr⟩
          ⟨"", some name, some rg, some zone, some recs, some ttl, none,
            some tags⟩).srv.store = some st1 ∧
      storeLookup (rg, zone, name)
        (resourceArmDnsPtrRecordCreateOrUpdate dnsServiceModel
          (resourceArmDnsPtrRecordCreateOrUpdate dnsServiceModel ⟨sub, store0, ctr⟩
            ⟨"", some name, some rg, some zone, some recs, some ttl, none, some tags⟩).srv
          ⟨"", some name, some rg, some zone, some recs, some ttl, none,
            some tags⟩).srv.store = some st2 ∧
      st1.ptrRecords = st2.ptrRecords ∧ st1.ttl = st2.ttl ∧ st1.metadata = st2.metadata := by
  have h1 := cou_model_eval sub rg zone name recs ttl tags store0 ctr hsub hrg hzone hname
  have h2 := cou_model_eval sub rg zone name recs ttl tags
    (storeUpsert (rg, zone, name)
      ⟨ttl, recs.map (fun fqdn => ⟨some fqdn⟩), tags, "etag-" ++ toString ctr⟩ store0)
    (ctr + 1) hsub hrg hzone hname
  refine ⟨⟨ttl, recs.map (fun fqdn => ⟨some fqdn⟩), tags, "etag-" ++ toString ctr⟩,
    ⟨ttl, recs.map (fun fqdn => ⟨some fqdn⟩), tags, "etag-" ++ toString (ctr + 1)⟩,
    ?_, ?_, rfl, rfl, rfl⟩
  · simp only [h1]
    simp [storeUpsert, storeLookup]
  · simp only [h1, h2]
    simp [storeUpsert, storeLookup]

/-- C6 (witness): the idempotence theorem at the spec's example record. -/
theorem dns_ptr_C6_witness :
    (goodSeg "sub0" ∧ goodSeg "rg1" ∧ goodSeg "zone1" ∧ goodSeg "ptr1") ∧
    (∃ st1 st2 : StoredRecord,
      storeLookup ("rg1", "zone1", "ptr1")
        (resourceArmDnsPtrRecordCreateOrUpdate dnsServiceModel ⟨"sub0", [], 0⟩
          ⟨"", some "ptr1", some "rg1", some "zone1", some ["host1.example.com"], some 300,
            none, some [("env", "prod")]⟩).srv.store = some st1 ∧
      storeLookup ("rg1", "zone1", "ptr1")
        (resourceArmDnsPtrRecordCreateOrUpdate dnsServiceModel
          (resourceArmDnsPtrRecordCreateOrUpdate dnsServiceModel ⟨"sub0", [], 0⟩
            ⟨"", some "ptr1", some "rg1", some "zone1", some ["host1.example.com"], some 300,
              none, some [("env", "prod")]⟩).srv
          ⟨"", some "ptr1", some "rg1", some "zone1", some ["host1.example.com"], some 300,
            none, some [("env", "prod")]⟩).srv.store = some st2 ∧
      st1.ptrRecords = st2.ptrRecords ∧ st1.ttl = st2.ttl ∧ st1.metadata = st2.metadata) :=
  ⟨⟨by decide, by decide, by decide, by decide⟩,
    dns_ptr_C6_idempotent "sub0" "rg1" "zone1" "ptr1" ["host1.example.com"] 300
      [("env", "prod")] [] 0 (by decide) (by decide) (by decide) (by decide)⟩

/-- C7: CreateOrUpdate issues exactly one upsert call, carrying the
record name, zone, the "PTR" discriminator, the assembled properties
(metadata expanded from the tag map, ttl, expanded record list), the
current etag from the attribute bag, and an empty if-none-match token —
whatever the client answers. -/
theorem dns_ptr_C7_single_upsert {σ : Type} (c : DnsClient σ) (srv : σ) (d : ResourceData) :
    ((resourceArmDnsPtrRecordCreateOrUpdate c srv d).calls).filter DnsCall.isUpsert =
      [DnsCall.upsert (getString d.resource_group_name) (getString d.zone_name)
        (getString d.name) RecordType.PTR
        ⟨some (getString d.name),
          some ⟨expandTags (getTags d.tags), some (getInt d.ttl),
            some (expandAzureRmDnsPtrRecords d).1⟩⟩
        (getString d.etag) ""] := by
  rcases hc : c.createOrUpdate srv (getString d.resource_group_name) (getString d.zone_name)
      (getString d.name) RecordType.PTR
      ⟨some (getString d.name),
        some ⟨expandTags (getTags d.tags), some (getInt d.ttl),
          some (expandAzureRmDnsPtrRecords d).1⟩⟩
      (getString d.etag) "" with ⟨srv', resp, err⟩
  rcases err with _ | e
  · rcases hid : resp.ID with _ | newId
    · simp [resourceArmDnsPtrRecordCreateOrUpdate, hc, hid, DnsCall.isUpsert]
    · simp [resourceArmDnsPtrRecordCreateOrUpdate, hc, hid, DnsCall.isUpsert,
        List.filter_append, read_calls_no_upsert]
  · simp [resourceArmDnsPtrRecordCreateOrUpdate, hc, DnsCall.isUpsert]

/-- C8: when the upsert call succeeds (nil error): if the response
carries no server-assigned identifier, CreateOrUpdate fails with the
protocol error and leaves the attribute bag (hence its identity)
untouched; otherwise it persists the identifier as the new id and
concludes with Read on that id, whose StepResult (outcome, bag and
service state) is the result of CreateOrUpdate. -/
theorem dns_ptr_C8_id_persistence {σ : Type} (c : DnsClient σ) (srv : σ) (d : ResourceData)
    (srv' : σ) (resp : RecordSetResp)
    (h : c.createOrUpdate srv (getString d.resource_group_name) (getString d.zone_name)
      (getString d.name) RecordType.PTR
      ⟨some (getString d.name),
        some ⟨expandTags (getTags d.tags), some (getInt d.ttl),
          some (expandAzureRmDnsPtrRecords d).1⟩⟩
      (getString d.etag) "" = (srv', resp, none)) :
    (resp.ID = none →
      (resourceArmDnsPtrRecordCreateOrUpdate c srv d).out =
        ROut.err ("Cannot read DNS PTR Record " ++ getString d.name ++
          " (resource group " ++ getString d.resource_group_name ++ ") ID") ∧
      (resourceArmDnsPtrRecordCreateOrUpdate c srv d).d = d) ∧
    (∀ newId, resp.ID = some newId →
      (resourceArmDnsPtrRecordCreateOrUpdate c srv d).out =
        (resourceArmDnsPtrRecordRead c srv' { d with id := newId }).out ∧
      (resourceArmDnsPtrRecordCreateOrUpdate c srv d).d =
        (resourceArmDnsPtrRecordRead c srv' { d with id := newId }).d ∧
      (resourceArmDnsPtrRecordCreateOrUpdate c srv d).srv =
        (resourceArmDnsPtrRecordRead c srv' { d with id := newId }).srv) := by
  constructor
  · intro hid
    simp [resourceArmDnsPtrRecordCreateOrUpdate, h, hid]
  · intro newId hid
    simp [resourceArmDnsPtrRecordCreateOrUpdate, h, hid]

/-- C8 (witness): the theorem applied to a concrete client whose upsert
response carries the identifier "srv-id". -/
theorem dns_ptr_C8_witness :
    (clDel200Err.createOrUpdate ()
      (getString emptyResourceData.resource_group_name)
      (getString emptyResourceData.zone_name) (getString emptyResourceData.name)
      RecordType.PTR
      ⟨some (getString emptyResourceData.name),
        some ⟨expandTags (getTags emptyResourceData.tags),
          some (getInt emptyResourceData.ttl),
          some (expandAzureRmDnsPtrRecords emptyResourceData).1⟩⟩
      (getString emptyResourceData.etag) "" =
      ((), ⟨200, some "srv-id", none, none, none, []⟩, none)) ∧
    (((⟨200, some "srv-id", none, none, none, []⟩ : RecordSetResp).ID = none →
      (resourceArmDnsPtrRecordCreateOrUpdate clDel200Err () emptyResourceData).out =
        ROut.err ("Cannot read DNS PTR Record " ++ getString emptyResourceData.name ++
          " (resource group " ++ getString emptyResourceData.resource_group_name ++ ") ID") ∧
      (resourceArmDnsPtrRecordCreateOrUpdate clDel200Err () emptyResourceData).d =
        emptyResourceData) ∧
    (∀ newId, (⟨200, some "srv-id", none, none, none, []⟩ : RecordSetResp).ID = some newId →
      (resourceArmDnsPtrRecordCreateOrUpdate clDel200Err () emptyResourceData).out =
        (resourceArmDnsPtrRecordRead clDel200Err ()
          { emptyResourceData with id := newId }).out ∧
      (resourceArmDnsPtrRecordCreateOrUpdate clDel200Err () emptyResourceData).d =
        (resourceArmDnsPtrRecordRead clDel200Err ()
          { emptyResourceData with id := newId }).d ∧
      (resourceArmDnsPtrRecordCreateOrUpdate clDel200Err () emptyResourceData).srv =
        (resourceArmDnsPtrRecordRead clDel200Err ()
          { emptyResourceData with id := newId }).srv)) :=
  ⟨by decide,
    dns_ptr_C8_id_persistence clDel200Err () emptyResourceData ()
      ⟨200, some "srv-id", none, none, none, []⟩ (by decide)⟩

/-- C9: the record-expansion helper's error component is nil for every
input attribute bag — the set-to-list conversion cannot fail, so the
caller's unchecked error can never mask a failure. -/
theorem dns_ptr_C9_expand_no_error (d : ResourceData) :
    (expandAzureRmDnsPtrRecords d).2 = none := rfl

/-- C10 (code bug): `flattenAzureRmDnsPtrRecords` is not total on the nil
pointer.  The Go body computes `len(*records)` BEFORE its `if records
!= nil` check, so the nil pointer is dereferenced and the function
panics (modelled as `none`) instead of returning a hostname list; a
non-nil pointer is flattened normally. -/
theorem dns_ptr_C10_flatten_nil_crash :
    flattenAzureRmDnsPtrRecords none = none ∧
    flattenAzureRmDnsPtrRecords (some [⟨some "host1.example.com"⟩]) =
      some ["host1.example.com"] := ⟨rfl, rfl⟩

end DnsPtr
